import Mathlib

/-!
Verification of the Attestation & Birth-Certificate Verification Engine of the
secret_moltbot repository.

The dashboard side (TypeScript under `dashboard/src`) is embedded directly from
the source: the API client (`lib/api.ts`), the birth-certificate SWR hook
(`lib/hooks/useBirthCertificate.ts`), the card component
(`components/BirthCertificateCard.tsx`) and the RTMR3 comparison rendered by
`app/attestation/page.tsx`.

The agent backend (measurement collector, digest and binding calculator,
quality classifier, birth-certificate manager) is not part of the source tree;
those components are modelled from the specification, with each such definition
marked `Modelled from the spec:` in its doc comment.  Cryptographic hash
functions are taken as parameters and idealized as injective where the spec
appeals to collision resistance.
-/

namespace Attestai

/- ### Canonical byte-level serialization (Digest & Binding Calculator) -/

/-- Byte sequence of a string: each character mapped to its numeric code point. -/
def strBytes (s : String) : List Nat := s.data.map Char.toNat

/-- Modelled from the spec: canonical, order-stable serialization of a present
string field, length-prefixed so that no two distinct strings (nor any two
distinct sequences of fields) serialize identically.  Missing from src/: the
backend digest calculator's canonicalization. -/
def encodeStr (s : String) : List Nat := s.length :: strBytes s

/-- Modelled from the spec: serialization of an optional measurement field with
an explicit absent-marker (tag byte 0) for missing fields, so absence cannot
collide with any valid present digest value (tag byte 1 followed by the
length-prefixed value). -/
def encodeField : Option String → List Nat
  | Option.none => [0]
  | Option.some v => 1 :: encodeStr v

/-- Length-prefixed serialization of a raw digest given as a byte sequence
(used for the credential hash, which is itself a hash output in the model). -/
def encodeBytes (l : List Nat) : List Nat := l.length :: l

/-- Modelled from the spec: `bind(enclaveDigest, serviceDigest, timestamp)`
concatenates the canonical serializations of the three inputs in a fixed,
documented order and hashes the result.  The hash is a parameter; the spec
allows any cryptographically strong fixed-output hash, idealized as injective
in the theorems.  Missing from src/: the backend binding calculator. -/
def bind (hash : List Nat → List Nat) (d1 d2 t : String) : List Nat :=
  hash (encodeStr d1 ++ (encodeStr d2 ++ encodeStr t))

/- ### Measurement Collector data model -/

/-- Modelled from the spec: the enclave-side `MeasurementSet` with its ordered
named hex-digest fields (firmware hash, kernel hash, application-layer hash,
root-filesystem+compose hash, security-version field), each present or absent.
Missing from src/: the backend collector's record type (the dashboard's
`CpuQuote` mirrors the same fields as `mrtd`/`rtmr0..3`/`tcb_svn`). -/
structure MeasurementSet where
  firmware : Option String
  kernel : Option String
  app : Option String
  rootfs : Option String
  svn : Option String
deriving DecidableEq

/-- Hex digit test for measurement field validity. -/
def isHexChar (c : Char) : Bool :=
  ('0' ≤ c && c ≤ '9') || ('a' ≤ c && c ≤ 'f')

/-- A valid present measurement value: a hex string of the fixed length 96
(the length of the TDX RTMR hex digests displayed by the dashboard). -/
def validHex (s : String) : Bool := s.length == 96 && s.data.all isHexChar

/-- Validity of one optional field: absent fields are valid, present fields
must be valid fixed-length hex. -/
def validField : Option String → Bool
  | Option.none => true
  | Option.some v => validHex v

/-- Validity of a whole `MeasurementSet`. -/
def validMS (m : MeasurementSet) : Bool :=
  validField m.firmware && validField m.kernel && validField m.app &&
    validField m.rootfs && validField m.svn

/-- Modelled from the spec: canonical serialization of a `MeasurementSet` in
stable field order with explicit absent-markers. -/
def serializeMS (m : MeasurementSet) : List Nat :=
  encodeField m.firmware ++ (encodeField m.kernel ++ (encodeField m.app ++
    (encodeField m.rootfs ++ encodeField m.svn)))

/-- Modelled from the spec: `digestOf(record)` canonicalizes the record's
fields into a deterministic byte sequence and applies a cryptographic hash
(taken as a parameter).  Missing from src/: the backend digest calculator. -/
def digestOf (hash : List Nat → List Nat) (m : MeasurementSet) : List Nat :=
  hash (serializeMS m)

/-- Modelled from the spec: on `Unavailable` the enclave collector returns a
`MeasurementSet` with every field explicitly marked absent rather than failing
the whole call.  Missing from src/: the backend collector. -/
def unavailableMeasurementSet : MeasurementSet :=
  ⟨Option.none, Option.none, Option.none, Option.none, Option.none⟩

/- ### Quality Classifier -/

/-- Trust tiers of the quality classifier, lowest to highest. -/
inductive Tier
  | none
  | low
  | medium
  | high
deriving DecidableEq

/-- Numeric rank of a tier (used to compare tiers). -/
def tierRank : Tier → Nat
  | Tier.none => 0
  | Tier.low => 1
  | Tier.medium => 2
  | Tier.high => 3

/-- Minimum of two tiers under the rank order. -/
def minTier (a b : Tier) : Tier := if tierRank a ≤ tierRank b then a else b

/-- Enclave-side verification status: measurements fully present and
consistent, or absent/unavailable. -/
inductive EnclaveStatus
  | fullyVerified
  | unavailable
deriving DecidableEq

/-- Service-side verification outcome per the spec: `verified` (hardware
proof), `tlsOnly` (the spec's "partial": TLS channel authenticated but no
hardware-level proof obtainable), or `unverified`. -/
inductive ServiceOutcome
  | verified
  | tlsOnly
  | unverified
deriving DecidableEq

/-- Modelled from the spec: the classifier's tier table.  `high` requires the
enclave fully verified and the service verified with hardware proof; `medium`
is enclave fully verified with service only TLS-authenticated; `low` is
service verified with enclave measurements absent; every combination in which
neither side reaches its verified state (including the spec's scenario of an
unavailable enclave with a TLS-only service) is `none`.  Missing from src/:
the backend quality classifier. -/
def classify : EnclaveStatus → ServiceOutcome → Tier
  | EnclaveStatus.fullyVerified, ServiceOutcome.verified => Tier.high
  | EnclaveStatus.fullyVerified, ServiceOutcome.tlsOnly => Tier.medium
  | EnclaveStatus.fullyVerified, ServiceOutcome.unverified => Tier.none
  | EnclaveStatus.unavailable, ServiceOutcome.verified => Tier.low
  | EnclaveStatus.unavailable, ServiceOutcome.tlsOnly => Tier.none
  | EnclaveStatus.unavailable, ServiceOutcome.unverified => Tier.none

/-- Individual strength of the enclave side, as forced by the spec's tier
table: a fully verified enclave supports `high`; an absent enclave with a
verified service yields `low`. -/
def enclaveStrength : EnclaveStatus → Tier
  | EnclaveStatus.fullyVerified => Tier.high
  | EnclaveStatus.unavailable => Tier.low

/-- Individual strength of the service side, as forced by the spec's tier
table: verified supports `high`, TLS-only caps at `medium`, unverified is
`none`. -/
def serviceStrength : ServiceOutcome → Tier
  | ServiceOutcome.verified => Tier.high
  | ServiceOutcome.tlsOnly => Tier.medium
  | ServiceOutcome.unverified => Tier.none

/-- Modelled from the spec: the fixed explanation table keyed by
(enclave status, service status); the explanation is never freeform. -/
def explanationFor : EnclaveStatus → ServiceOutcome → String
  | EnclaveStatus.fullyVerified, ServiceOutcome.verified =>
      "Agent code and LLM inference both verified inside TEEs"
  | EnclaveStatus.fullyVerified, ServiceOutcome.tlsOnly =>
      "Agent code verified; LLM service TLS-authenticated without hardware proof"
  | EnclaveStatus.fullyVerified, ServiceOutcome.unverified =>
      "Agent code verified; LLM service unverified"
  | EnclaveStatus.unavailable, ServiceOutcome.verified =>
      "LLM inference verified; enclave measurements unavailable"
  | EnclaveStatus.unavailable, ServiceOutcome.tlsOnly =>
      "Enclave measurements unavailable; LLM service TLS-authenticated only"
  | EnclaveStatus.unavailable, ServiceOutcome.unverified =>
      "Neither agent code nor LLM inference verified"

/-- The attestation summary shown by the dashboard (`AttestationSummary` in
`lib/types.ts`): per-side verification fields, end-to-end privacy flag, and
the explanation string. -/
structure AttestationSummary where
  agent_code : String
  llm_inference : String
  end_to_end_privacy : String
  explanation : String
deriving DecidableEq

/-- Modelled from the spec: the summary derived from the two sides' statuses.
`agent_code` is verified exactly when the enclave side is fully verified;
`llm_inference` is verified exactly when the service side has hardware-backed
verification.  Missing from src/: the backend summary builder. -/
def summaryOf (e : EnclaveStatus) (s : ServiceOutcome) : AttestationSummary :=
  { agent_code := if e = EnclaveStatus.fullyVerified then "verified" else "unverified"
    llm_inference := if s = ServiceOutcome.verified then "verified" else "unverified"
    end_to_end_privacy :=
      if e = EnclaveStatus.fullyVerified ∧ s = ServiceOutcome.verified then "guaranteed"
      else "partial"
    explanation := explanationFor e s }

/-- Whether every field of a `MeasurementSet` is present. -/
def allPresent (m : MeasurementSet) : Bool :=
  m.firmware.isSome && m.kernel.isSome && m.app.isSome && m.rootfs.isSome && m.svn.isSome

/-- Modelled from the spec: the enclave side is fully verified exactly when
all measurement fields are present. -/
def enclaveStatusOf (m : MeasurementSet) : EnclaveStatus :=
  if allPresent m then EnclaveStatus.fullyVerified else EnclaveStatus.unavailable

/-- Modelled from the spec: the service outcome given whether the TLS
handshake succeeded and whether a hardware attestation payload was obtained;
a successful handshake without a hardware payload is the spec's "partial". -/
def serviceOutcomeOf (tlsOk : Bool) (hwPayload : Option String) : ServiceOutcome :=
  if tlsOk then
    (if hwPayload.isSome then ServiceOutcome.verified else ServiceOutcome.tlsOnly)
  else ServiceOutcome.unverified

/- ### Birth Certificate Manager -/

/-- The stored birth-certificate record (`BirthCertificate` in `lib/types.ts`,
restricted to the fields covered by the binding plus identity fields): schema
version, identity, one-way credential hash, the enclave application-layer
measurement captured at birth (nullable), the snapshot tier, the creation
timestamp, and the binding digest over the ordered field list
{credential hash, enclave digest, snapshot tier, creation timestamp}. -/
structure BirthCertificate where
  version : String
  agent_name : String
  api_key_hash : List Nat
  birth_rtmr3 : Option String
  quality : String
  created_at : String
  binding_digest : List Nat
deriving DecidableEq

/-- Modelled from the spec: the exact ordered input over which the birth
certificate's binding digest is computed: {credential hash, enclave digest,
snapshot tier, creation timestamp}.  Missing from src/: the backend
birth-certificate manager. -/
def bindingInput (c : BirthCertificate) : List Nat :=
  encodeBytes c.api_key_hash ++ (encodeField c.birth_rtmr3 ++
    (encodeStr c.quality ++ encodeStr c.created_at))

/-- The attestation view consumed by `create`: the current enclave
application-layer digest (absent when not running in the enclave) and the
classifier's tier label for the snapshot. -/
structure AttestationView where
  rtmr3 : Option String
  quality : String
deriving DecidableEq

/-- Error of a second `create` call: the record already exists. -/
inductive CreateError
  | alreadyExists
deriving DecidableEq

/-- Modelled from the spec: building the record at creation time: hash the
credential (never store it raw), embed the enclave digest and snapshot tier
from the view, and compute the binding digest over the ordered field list. -/
def mkCert (hash : List Nat → List Nat) (name cred : String)
    (view : AttestationView) (now : String) : BirthCertificate :=
  let base : BirthCertificate :=
    { version := "1"
      agent_name := name
      api_key_hash := hash (strBytes cred)
      birth_rtmr3 := view.rtmr3
      quality := view.quality
      created_at := now
      binding_digest := [] }
  { base with binding_digest := hash (bindingInput base) }

/-- Modelled from the spec: `create(credential, attestationView)` against the
durable store (modelled as the optional stored record).  A second creation
fails with `AlreadyExists` and leaves the stored record untouched; otherwise
the record is built and persisted atomically.  Missing from src/: the backend
birth-certificate manager. -/
def create (hash : List Nat → List Nat) (store : Option BirthCertificate)
    (name cred : String) (view : AttestationView) (now : String) :
    Except CreateError BirthCertificate × Option BirthCertificate :=
  match store with
  | Option.some c => (Except.error CreateError.alreadyExists, Option.some c)
  | Option.none =>
      let c := mkCert hash name cred view now
      (Except.ok c, Option.some c)

/-- Outcome of comparing the stored enclave digest against the current one:
reported as a fact (`unchanged`/`changed`) or `notApplicable` when the stored
digest is null (not running in the enclave at birth) or no current digest is
available. -/
inductive CodeComparison
  | unchanged
  | changed
  | notApplicable
deriving DecidableEq

/-- Modelled from the spec: the current-versus-birth code comparison of
`verify()`; a null stored digest is reported as not applicable, never as a
mismatch. -/
def codeComparison : Option String → Option String → CodeComparison
  | Option.none, _ => CodeComparison.notApplicable
  | Option.some _, Option.none => CodeComparison.notApplicable
  | Option.some b, Option.some c =>
      if c = b then CodeComparison.unchanged else CodeComparison.changed

/-- Result of `verify()`: `notFound` when no record was ever created (an
expected non-fatal state), `corruptRecord` when the recomputed binding digest
does not match the stored one (fatal trust failure), or the record verdict
with the code comparison. -/
inductive VerificationResult
  | notFound
  | corruptRecord
  | verified (codeChanged : CodeComparison)
deriving DecidableEq

/-- Modelled from the spec: `verify(currentAttestationView)` loads the stored
record (`NotFound` if absent), recomputes the binding digest over the stored
fields and compares against the stored digest (`CorruptRecord` on mismatch),
then reports the stored-versus-current enclave digest comparison.  Missing
from src/: the backend birth-certificate manager. -/
def verify (hash : List Nat → List Nat) (store : Option BirthCertificate)
    (currentRtmr3 : Option String) : VerificationResult :=
  match store with
  | Option.none => VerificationResult.notFound
  | Option.some c =>
      if hash (bindingInput c) = c.binding_digest then
        VerificationResult.verified (codeComparison c.birth_rtmr3 currentRtmr3)
      else VerificationResult.corruptRecord

/-- Replace the character at index `i` of a string (models flipping a single
byte of a stored hex-digest field). -/
def setCharAt (s : String) (i : Nat) (c : Char) : String :=
  String.mk (s.data.set i c)

/- ### Dashboard API client (`dashboard/src/lib/api.ts`) -/

/-- The `ApiError` class of `lib/api.ts`: message, HTTP status, and the fixed
name set in the constructor. -/
structure ApiError where
  message : String
  status : Nat
  name : String
deriving DecidableEq

/-- Constructor of `ApiError`: sets `name` to the string `ApiError`. -/
def mkApiError (message : String) (status : Nat) : ApiError :=
  { message := message, status := status, name := "ApiError" }

/-- Shallow model of a fetch `Response` as consumed by `handleResponse`:
the `ok` flag, HTTP status, status text, body text (read on error), and the
parsed JSON value (read on success), at the parsed type `T`. -/
structure HttpResponse (T : Type) where
  ok : Bool
  status : Nat
  statusText : String
  bodyText : String
  jsonBody : T

/-- `handleResponse` of `lib/api.ts`: on a non-ok response it throws an
`ApiError` whose message is the body text, falling back to the status text
when the body is empty (the JS `errorText || response.statusText`), and whose
status is the response status; on an ok response it returns the parsed JSON. -/
def handleResponse {T : Type} (r : HttpResponse T) : Except ApiError T :=
  if r.ok then Except.ok r.jsonBody
  else
    Except.error
      (mkApiError (if r.bodyText = "" then r.statusText else r.bodyText) r.status)

/-- `fetchApi` of `lib/api.ts`: performs the fetch (modelled as a function
from endpoint to response) and delegates to `handleResponse`. -/
def fetchApi {T : Type} (fetch : String → HttpResponse T) (endpoint : String) :
    Except ApiError T :=
  handleResponse (fetch endpoint)

/-- HTTP method of an API client call: `GET` is the fetch default when no
method option is passed, `POST` is passed explicitly. -/
inductive HttpMethod
  | GET
  | POST
deriving DecidableEq

/-- One method of the `api` object in `lib/api.ts`: its name, the endpoint it
targets (query strings dropped), and the HTTP method it issues. -/
structure ApiMethod where
  name : String
  endpoint : String
  httpMethod : HttpMethod
deriving DecidableEq

/-- The `api` object of `lib/api.ts` (a monitoring-only API).  Methods with no
`method` option issue GET; `triggerHeartbeat` and `generateContent` pass POST
explicitly.  `getBirthCertificate` is called by
`lib/hooks/useBirthCertificate.ts` but its definition is outside the source
tree; it is modelled from the spec's read-only birth-certificate query. -/
def api : List ApiMethod :=
  [{ name := "getStatus", endpoint := "/status", httpMethod := HttpMethod.GET }
  , { name := "getActivity", endpoint := "/activity", httpMethod := HttpMethod.GET }
  , { name := "getFeed", endpoint := "/feed", httpMethod := HttpMethod.GET }
  , { name := "getMemory", endpoint := "/memory", httpMethod := HttpMethod.GET }
  , { name := "getConfig", endpoint := "/config", httpMethod := HttpMethod.GET }
  , { name := "getAttestation", endpoint := "/attestation", httpMethod := HttpMethod.GET }
  , { name := "getBirthCertificate", endpoint := "/birth-certificate", httpMethod := HttpMethod.GET }
  , { name := "triggerHeartbeat", endpoint := "/heartbeat", httpMethod := HttpMethod.POST }
  , { name := "generateContent", endpoint := "/generate", httpMethod := HttpMethod.POST }]

/-- Whether an API client method touches attestation or birth-certificate
state. -/
def touchesTrustState (m : ApiMethod) : Bool :=
  m.endpoint == "/attestation" || m.endpoint == "/birth-certificate"

/- ### Birth-certificate hook and card
(`lib/hooks/useBirthCertificate.ts`, `components/BirthCertificateCard.tsx`) -/

/-- Error held by the SWR hook: either an `ApiError` thrown by the client or
any other error value. -/
inductive HookError
  | apiError (e : ApiError)
  | otherError (message : String)
deriving DecidableEq

/-- The `notFound` flag of `useBirthCertificate`: the error is an `ApiError`
with status 404 (`error instanceof ApiError && error.status === 404`). -/
def hookNotFound : Option HookError → Bool
  | Option.some (HookError.apiError e) => e.status == 404
  | _ => false

/-- The `isError` flag of `useBirthCertificate`: an error is present and it is
not the expected 404 (`!!error && !notFound`). -/
def hookIsError (err : Option HookError) : Bool :=
  err.isSome && !(hookNotFound err)

/-- What the birth-certificate card renders (after loading): the
"Unavailable" badge state or the certificate details. -/
inductive CardState
  | unavailableCard
  | detailsCard
deriving DecidableEq

/-- `BirthCertificateCard`: when `notFound` or no certificate data, it renders
the card with the "Unavailable" badge; otherwise the certificate details. -/
def birthCertificateCardState {C : Type} (cert : Option C) (err : Option HookError) :
    CardState :=
  if hookNotFound err || cert.isNone then CardState.unavailableCard
  else CardState.detailsCard

/- ### RTMR3 comparison on the attestation page (`app/attestation/page.tsx`) -/

/-- JS truthiness of an optional string: present and non-empty. -/
def truthy : Option String → Bool
  | Option.some s => !(s == "")
  | Option.none => false

/-- What the attestation page renders for the current-versus-birth RTMR3
comparison: a match line, a mismatch line, or nothing. -/
inductive RtmrVerdict
  | matchShown
  | mismatchShown
  | notShown
deriving DecidableEq

/-- The RTMR3 comparison block of `app/attestation/page.tsx`: the verdict is
rendered only when `birthCert.birth_rtmr3 &&
attestation?.secretvm?.cpu_quote?.rtmr3` is truthy, and shows a match exactly
when the two strings are equal. -/
def rtmrVerdict (birth current : Option String) : RtmrVerdict :=
  if truthy birth && truthy current then
    (if birth == current then RtmrVerdict.matchShown else RtmrVerdict.mismatchShown)
  else RtmrVerdict.notShown

/-- The birth RTMR3 field display of `app/attestation/page.tsx`:
`birthCert.birth_rtmr3 || 'N/A (not running in SecretVM at birth)'`. -/
def birthRtmr3Display : Option String → String
  | Option.some s => if s == "" then "N/A (not running in SecretVM at birth)" else s
  | Option.none => "N/A (not running in SecretVM at birth)"

/- ### Injectivity of the canonical serialization -/

/-- Character code points determine the character. -/
theorem char_toNat_injective : Function.Injective Char.toNat := by
  intro c d h
  have hc := Char.ofNat_toNat c
  rw [h, Char.ofNat_toNat d] at hc
  exact hc.symm

/-- The byte sequence of a string determines the string. -/
theorem strBytes_injective : Function.Injective strBytes := by
  intro v w h
  have hd : v.data = w.data := List.map_injective_iff.mpr char_toNat_injective h
  cases v
  cases w
  exact congrArg String.mk hd

/-- A length-prefixed string block is prefix-decodable: equal concatenations
with arbitrary tails force the strings and the tails to agree. -/
theorem encodeStr_append_inj {v w : String} {r s : List Nat}
    (h : encodeStr v ++ r = encodeStr w ++ s) : v = w ∧ r = s := by
  simp only [encodeStr, List.cons_append, List.cons.injEq] at h
  obtain ⟨hlen, htail⟩ := h
  have hl : (strBytes v).length = (strBytes w).length := by
    simp only [strBytes, List.length_map]
    exact hlen
  obtain ⟨hb, hrs⟩ := List.append_inj htail hl
  exact ⟨strBytes_injective hb, hrs⟩

/-- The length-prefixed string serialization is injective. -/
theorem encodeStr_injective : Function.Injective encodeStr := by
  intro v w h
  have h' : encodeStr v ++ ([] : List Nat) = encodeStr w ++ [] := by simp [h]
  exact (encodeStr_append_inj h').1

/-- An optional-field block is prefix-decodable: the absent-marker tag and the
present tag differ, and present blocks are length-prefixed. -/
theorem encodeField_append_inj {a b : Option String} {r s : List Nat}
    (h : encodeField a ++ r = encodeField b ++ s) : a = b ∧ r = s := by
  match a, b with
  | Option.none, Option.none =>
      simp only [encodeField, List.cons_append, List.nil_append, List.cons.injEq] at h
      exact ⟨rfl, h.2⟩
  | Option.none, Option.some w =>
      simp [encodeField, encodeStr] at h
  | Option.some v, Option.none =>
      simp [encodeField, encodeStr] at h
  | Option.some v, Option.some w =>
      simp only [encodeField, List.cons_append, List.cons.injEq, true_and] at h
      obtain ⟨hvw, hrs⟩ := encodeStr_append_inj h
      exact ⟨by rw [hvw], hrs⟩

/-- The optional-field serialization is injective; in particular the explicit
absent-marker collides with no present value. -/
theorem encodeField_injective : Function.Injective encodeField := by
  intro a b h
  have h' : encodeField a ++ ([] : List Nat) = encodeField b ++ [] := by simp [h]
  exact (encodeField_append_inj h').1

/-- A length-prefixed raw-bytes block is prefix-decodable. -/
theorem encodeBytes_append_inj {a b r s : List Nat}
    (h : encodeBytes a ++ r = encodeBytes b ++ s) : a = b ∧ r = s := by
  simp only [encodeBytes, List.cons_append, List.cons.injEq] at h
  exact List.append_inj h.2 h.1

/-- The canonical serialization of a `MeasurementSet` is injective. -/
theorem serializeMS_injective : Function.Injective serializeMS := by
  intro a b h
  obtain ⟨a1, a2, a3, a4, a5⟩ := a
  obtain ⟨b1, b2, b3, b4, b5⟩ := b
  simp only [serializeMS] at h
  obtain ⟨h1, h⟩ := encodeField_append_inj h
  obtain ⟨h2, h⟩ := encodeField_append_inj h
  obtain ⟨h3, h⟩ := encodeField_append_inj h
  obtain ⟨h4, h5⟩ := encodeField_append_inj h
  have h5' := encodeField_injective h5
  subst h1
  subst h2
  subst h3
  subst h4
  rw [h5']

/-- The binding input determines the stored enclave digest field: two records
differing only in `birth_rtmr3` have equal binding inputs only when the field
agrees. -/
theorem bindingInput_rtmr3_inj {c : BirthCertificate} {x y : Option String}
    (h : bindingInput { c with birth_rtmr3 := x } =
      bindingInput { c with birth_rtmr3 := y }) : x = y := by
  obtain ⟨cv, cn, ck, cb, cq, cd, cbd⟩ := c
  simp only [bindingInput] at h
  have h1 := List.append_cancel_left h
  exact (encodeField_append_inj h1).1

/-- A well-formed record whose stored enclave digest field is replaced by any
different value fails binding-digest recomputation: `verify` reports
`CorruptRecord`. -/
theorem verify_rtmr3_change_corrupt
    (hash : List Nat → List Nat) (hinj : Function.Injective hash)
    (c : BirthCertificate) (x : Option String) (current : Option String)
    (hwf : c.binding_digest = hash (bindingInput c))
    (hx : x ≠ c.birth_rtmr3) :
    verify hash (Option.some { c with birth_rtmr3 := x }) current =
      VerificationResult.corruptRecord := by
  have hne : hash (bindingInput { c with birth_rtmr3 := x }) ≠
      ({ c with birth_rtmr3 := x } : BirthCertificate).binding_digest := by
    intro heq
    have hcb : ({ c with birth_rtmr3 := x } : BirthCertificate).binding_digest =
        c.binding_digest := rfl
    rw [hcb, hwf] at heq
    have hbi := hinj heq
    have hceq : ({ c with birth_rtmr3 := c.birth_rtmr3 } : BirthCertificate) = c := rfl
    rw [← hceq] at hbi
    exact hx (bindingInput_rtmr3_inj hbi)
  simp only [verify]
  rw [if_neg hne]

/- ### Claims -/

/-- C1: for every stored birth-certificate record, modifying any single byte
of the stored enclave digest field before calling `verify()` causes
`verify()` to return `CorruptRecord`, because recomputing the binding digest
over the stored fields no longer matches the stored digest. -/
theorem claim1_single_byte_tamper_corrupt
    (hash : List Nat → List Nat) (hinj : Function.Injective hash)
    (c : BirthCertificate) (s : String) (i : Nat) (ch : Char) (current : Option String)
    (hwf : c.binding_digest = hash (bindingInput c))
    (hs : c.birth_rtmr3 = Option.some s)
    (hi : i < s.data.length)
    (hch : Option.some ch ≠ s.data[i]?) :
    verify hash
      (Option.some { c with birth_rtmr3 := Option.some (setCharAt s i ch) }) current =
      VerificationResult.corruptRecord := by
  apply verify_rtmr3_change_corrupt hash hinj c _ current hwf
  rw [hs]
  intro he
  apply hch
  have hd : s.data.set i ch = s.data :=
    congrArg String.data (Option.some.inj he)
  have h1 : (s.data.set i ch)[i]? = Option.some ch := by
    rw [List.getElem?_set_self]
    exact hi
  calc Option.some ch = (s.data.set i ch)[i]? := h1.symm
    _ = s.data[i]? := by rw [hd]

/-- Witness for C1: a concrete well-formed record whose stored digest `ab`
has its first byte flipped to `z`. -/
theorem claim1_single_byte_tamper_corrupt_witness :
    verify id
      (Option.some { mkCert id "attestai" "k0" ⟨Option.some "ab", "high"⟩ "t0" with
        birth_rtmr3 := Option.some (setCharAt "ab" 0 'z') }) (Option.some "ab") =
      VerificationResult.corruptRecord :=
  claim1_single_byte_tamper_corrupt id (fun _ _ h => h)
    (mkCert id "attestai" "k0" ⟨Option.some "ab", "high"⟩ "t0") "ab" 0 'z'
    (Option.some "ab") rfl rfl (by decide) (by decide)

/-- C3: `bind(d1, d2, t)` is deterministic — identical inputs yield identical
output — and changing any single one of the three arguments changes the
output (the hash being idealized as injective). -/
theorem claim3_bind_deterministic_sensitive
    (hash : List Nat → List Nat) (hinj : Function.Injective hash) :
    (∀ d1 d2 t : String, bind hash d1 d2 t = bind hash d1 d2 t) ∧
      (∀ d1 d1' d2 t : String, d1 ≠ d1' → bind hash d1 d2 t ≠ bind hash d1' d2 t) ∧
      (∀ d1 d2 d2' t : String, d2 ≠ d2' → bind hash d1 d2 t ≠ bind hash d1 d2' t) ∧
      (∀ d1 d2 t t' : String, t ≠ t' → bind hash d1 d2 t ≠ bind hash d1 d2 t') := by
  refine ⟨fun _ _ _ => rfl, ?_, ?_, ?_⟩
  · intro d1 d1' d2 t hne heq
    exact hne (encodeStr_append_inj (hinj heq)).1
  · intro d1 d2 d2' t hne heq
    have h := List.append_cancel_left (hinj heq)
    exact hne (encodeStr_append_inj h).1
  · intro d1 d2 t t' hne heq
    have h := List.append_cancel_left (List.append_cancel_left (hinj heq))
    exact hne (encodeStr_injective h)

/-- Witness for C3: determinism and timestamp sensitivity at concrete
inputs, with the identity as the idealized injective hash. -/
theorem claim3_bind_deterministic_sensitive_witness :
    bind id "d1" "d2" "t1" = bind id "d1" "d2" "t1" ∧
      bind id "d1" "d2" "t1" ≠ bind id "d1" "d2" "t2" :=
  ⟨(claim3_bind_deterministic_sensitive id (fun _ _ h => h)).1 "d1" "d2" "t1",
    (claim3_bind_deterministic_sensitive id (fun _ _ h => h)).2.2.2 "d1" "d2" "t1" "t2"
      (by decide)⟩

/-- C4: if a birth-certificate record already exists, a second `create()`
call with the same credential identity fails with `AlreadyExists` and the
stored record is left untouched, identical to the first call's output. -/
theorem claim4_double_create_already_exists
    (hash : List Nat → List Nat) (name cred : String) (view : AttestationView)
    (t1 t2 : String) :
    (create hash Option.none name cred view t1).1 =
        Except.ok (mkCert hash name cred view t1) ∧
      (create hash Option.none name cred view t1).2 =
        Option.some (mkCert hash name cred view t1) ∧
      (create hash ((create hash Option.none name cred view t1).2) name cred view t2).1 =
        Except.error CreateError.alreadyExists ∧
      (create hash ((create hash Option.none name cred view t1).2) name cred view t2).2 =
        (create hash Option.none name cred view t1).2 :=
  ⟨rfl, rfl, rfl, rfl⟩

/-- C5: `verify()` with no record ever created yields `NotFound`; the
dashboard hook maps the resulting HTTP 404 to `notFound = true` and
`isError = false`, and the card renders the "Unavailable" badge, not an
error state. -/
theorem claim5_notfound_is_expected
    (hash : List Nat → List Nat) (current : Option String) (e : ApiError)
    (he : e.status = 404) :
    verify hash Option.none current = VerificationResult.notFound ∧
      hookNotFound (Option.some (HookError.apiError e)) = true ∧
      hookIsError (Option.some (HookError.apiError e)) = false ∧
      birthCertificateCardState (Option.none : Option BirthCertificate)
        (Option.some (HookError.apiError e)) = CardState.unavailableCard := by
  refine ⟨rfl, ?_, ?_, ?_⟩ <;>
    simp [hookNotFound, hookIsError, birthCertificateCardState, he]

/-- Witness for C5 with a concrete 404 `ApiError`. -/
theorem claim5_notfound_is_expected_witness :
    verify id Option.none (Option.some "r3") = VerificationResult.notFound ∧
      hookNotFound (Option.some (HookError.apiError (mkApiError "Not Found" 404))) = true ∧
      hookIsError (Option.some (HookError.apiError (mkApiError "Not Found" 404))) = false ∧
      birthCertificateCardState (Option.none : Option BirthCertificate)
        (Option.some (HookError.apiError (mkApiError "Not Found" 404))) =
        CardState.unavailableCard :=
  claim5_notfound_is_expected id (Option.some "r3") (mkApiError "Not Found" 404) rfl

/-- C2 counterexample: with the enclave side unavailable and the service side
partial (TLS-only), the classifier returns `none`, but the minimum of the two
sides' individual strengths (enclave absent ↦ `low`, forced by the spec's
`low` row; service partial ↦ `medium`, forced by the `medium` row) is `low`:
the claimed universal minimum rule fails at this input. -/
theorem claim2_min_rule_counterexample :
    classify EnclaveStatus.unavailable ServiceOutcome.tlsOnly ≠
      minTier (enclaveStrength EnclaveStatus.unavailable)
        (serviceStrength ServiceOutcome.tlsOnly) := by decide

/-- C2 (amended): the classifier never exceeds the minimum of the two sides'
individual strengths, and equals that minimum everywhere except the
enclave-unavailable/service-partial cell, where it returns `none` (strictly
below the minimum `low`); in particular, enclave fully verified with service
partial yields exactly `medium`, never `high`. -/
theorem claim2_min_rule_amended :
    (∀ e s, tierRank (classify e s) ≤
        tierRank (minTier (enclaveStrength e) (serviceStrength s))) ∧
      (∀ e s, ¬(e = EnclaveStatus.unavailable ∧ s = ServiceOutcome.tlsOnly) →
        classify e s = minTier (enclaveStrength e) (serviceStrength s)) ∧
      classify EnclaveStatus.fullyVerified ServiceOutcome.tlsOnly = Tier.medium ∧
      classify EnclaveStatus.fullyVerified ServiceOutcome.tlsOnly ≠ Tier.high := by
  refine ⟨fun e s => ?_, fun e s h => ?_, by decide, by decide⟩
  · cases e <;> cases s <;> decide
  · cases e <;> cases s <;> first
      | decide
      | exact absurd ⟨rfl, rfl⟩ h

/-- Witness for C2 (amended) at the fully-verified/verified cell. -/
theorem claim2_min_rule_amended_witness :
    classify EnclaveStatus.fullyVerified ServiceOutcome.verified =
      minTier (enclaveStrength EnclaveStatus.fullyVerified)
        (serviceStrength ServiceOutcome.verified) :=
  claim2_min_rule_amended.2.1 EnclaveStatus.fullyVerified ServiceOutcome.verified
    (by decide)

/-- C6: a null stored enclave digest makes the current-versus-birth
comparison not applicable — in the spec-modelled `verify()` and in the
dashboard display — never a mismatch; the dashboard's match/mismatch verdict
is rendered only when both the stored and the current digest are present. -/
theorem claim6_null_rtmr3_not_applicable
    (current : Option String) (b c : Option String) :
    codeComparison Option.none current = CodeComparison.notApplicable ∧
      rtmrVerdict Option.none current = RtmrVerdict.notShown ∧
      birthRtmr3Display Option.none = "N/A (not running in SecretVM at birth)" ∧
      (rtmrVerdict b c ≠ RtmrVerdict.notShown → b.isSome = true ∧ c.isSome = true) := by
  refine ⟨rfl, by simp [rtmrVerdict, truthy], rfl, fun h => ?_⟩
  rw [rtmrVerdict] at h
  by_cases hcond : (truthy b && truthy c) = true
  · obtain ⟨hb, hc⟩ := Bool.and_eq_true_iff.mp hcond
    constructor
    · cases b <;> simp_all [truthy]
    · cases c <;> simp_all [truthy]
  · rw [if_neg (by simpa using hcond)] at h
    exact absurd rfl h

/-- Witness for C6: the verdict-shown implication discharged at a concrete
pair of present digests. -/
theorem claim6_null_rtmr3_not_applicable_witness :
    (Option.some "aa" : Option String).isSome = true ∧
      (Option.some "bb" : Option String).isSome = true :=
  (claim6_null_rtmr3_not_applicable (Option.some "cc") (Option.some "aa")
    (Option.some "bb")).2.2.2 (by decide)

/-- C7: when the enclave collector returns `Unavailable` for all measurement
fields and the service TLS handshake succeeds without a hardware attestation
payload, the classified tier is `none` and both summary fields
(`agent_code`, `llm_inference`) are `unverified`. -/
theorem claim7_unavailable_tls_only_tier_none :
    classify (enclaveStatusOf unavailableMeasurementSet)
        (serviceOutcomeOf true Option.none) = Tier.none ∧
      (summaryOf (enclaveStatusOf unavailableMeasurementSet)
        (serviceOutcomeOf true Option.none)).agent_code = "unverified" ∧
      (summaryOf (enclaveStatusOf unavailableMeasurementSet)
        (serviceOutcomeOf true Option.none)).llm_inference = "unverified" := by
  refine ⟨rfl, ?_, ?_⟩ <;> rfl

/-- C8: for every pair of distinct valid `MeasurementSet`s the digests
differ (the hash idealized as injective), and the absent-marker serialization
never coincides with the serialization of any present value. -/
theorem claim8_digestOf_injective_on_valid
    (hash : List Nat → List Nat) (hinj : Function.Injective hash)
    (A B : MeasurementSet) (hA : validMS A = true) (hB : validMS B = true)
    (hAB : A ≠ B) :
    digestOf hash A ≠ digestOf hash B ∧
      ∀ v : String, encodeField Option.none ≠ encodeField (Option.some v) := by
  constructor
  · intro h
    exact hAB (serializeMS_injective (hinj h))
  · intro v hv
    simp [encodeField, encodeStr] at hv

/-- Witness for C8: the all-absent set against a set whose firmware field is
a valid 96-character hex digest, under the identity hash. -/
theorem claim8_digestOf_injective_on_valid_witness :
    digestOf id unavailableMeasurementSet ≠
        digestOf id
          ⟨Option.some
              "0123456789abcdef0123456789abcdef0123456789abcdef0123456789abcdef0123456789abcdef0123456789abcdef",
            Option.none, Option.none, Option.none, Option.none⟩ ∧
      ∀ v : String, encodeField Option.none ≠ encodeField (Option.some v) :=
  claim8_digestOf_injective_on_valid id (fun _ _ h => h) unavailableMeasurementSet
    ⟨Option.some
        "0123456789abcdef0123456789abcdef0123456789abcdef0123456789abcdef0123456789abcdef0123456789abcdef",
      Option.none, Option.none, Option.none, Option.none⟩
    (by decide) (by decide) (by decide)

/-- C9: every method of the dashboard API client that touches attestation or
birth-certificate state issues only GET requests (and both such endpoints do
occur in the client), so no exposed operation mutates trust state. -/
theorem claim9_trust_endpoints_read_only :
    api.all (fun m => !(touchesTrustState m) || (m.httpMethod == HttpMethod.GET)) = true ∧
      api.any (fun m => m.endpoint == "/attestation") = true ∧
      api.any (fun m => m.endpoint == "/birth-certificate") = true := by decide

/-- C10: `handleResponse` (reached by every `api` method through `fetchApi`)
throws an `ApiError` carrying the response's HTTP status and the body text
(falling back to the status text when the body is empty) exactly when the
response is not ok, and returns the parsed JSON value exactly when it is ok. -/
theorem claim10_handle_response_contract
    {T : Type} (r : HttpResponse T) :
    (∀ fetch : String → HttpResponse T, ∀ ep : String,
        fetchApi fetch ep = handleResponse (fetch ep)) ∧
      (r.ok = false →
        handleResponse r =
          Except.error
            (mkApiError (if r.bodyText = "" then r.statusText else r.bodyText) r.status)) ∧
      (∀ v : T, handleResponse r = Except.ok v ↔ (r.ok = true ∧ v = r.jsonBody)) := by
  refine ⟨fun _ _ => rfl, fun hok => by simp [handleResponse, hok], fun v => ?_⟩
  by_cases hok : r.ok <;> simp [handleResponse, hok, eq_comm]

/-- Witness for C10 at a concrete 404 response with an empty body. -/
theorem claim10_handle_response_contract_witness :
    handleResponse
        ({ ok := false
           status := 404
           statusText := "Not Found"
           bodyText := ""
           jsonBody := 0 } : HttpResponse Nat) =
      Except.error (mkApiError "Not Found" 404) := by
  simpa using
    (claim10_handle_response_contract
      ({ ok := false
         status := 404
         statusText := "Not Found"
         bodyText := ""
         jsonBody := 0 } : HttpResponse Nat)).2.1 rfl

end Attestai
